import Mathlib

/-
Shallow embedding of the Bluetooth test-automation harness:
  * src/agent.py   — the BlueZ pairing agent (RequestPinCode, RequestPasskey, ...)
  * src/bluez.py   — BluetoothDeviceManager (discovery, pair, connect, unpair, ...)
  * src/utils.py   — the blocking command runner `run` and its Result class

The D-Bus world is made explicit: the managed-object tree is a list of
(object path, optional Device1 property set); remote calls that can raise a
DBusException are passed in as `Except` values describing the outcome the bus
would have produced.  The dynamically typed callback results are embedded
as `PyVal` with Python truthiness.
-/

deriving instance DecidableEq for Except

/-- A Python value as returned by the UI callback of src/agent.py: `None`,
a string, or an integer. -/
inductive PyVal where
  | none : PyVal
  | str : String → PyVal
  | int : Int → PyVal
deriving DecidableEq, Repr

/-- Python truthiness (`if not pin` in Agent.RequestPinCode): `None`, the empty
string and `0` are falsy. -/
def pyTruthy : PyVal → Bool
  | PyVal.none => false
  | PyVal.str s => !(s == "")
  | PyVal.int n => !(n == 0)

/-- Python `str(...)` as applied in Agent.RequestPinCode. -/
def pyStr : PyVal → String
  | PyVal.none => "None"
  | PyVal.str s => s
  | PyVal.int n => toString n

/-- All-digit run folded to a number; any non-digit character fails, an empty
run succeeds with the accumulator (callers must check non-emptiness). -/
def digitsVal : List Char → Nat → Option Nat
  | [], acc => Option.some acc
  | c :: rest, acc =>
    if c.isDigit then digitsVal rest (acc * 10 + (c.toNat - 48)) else Option.none

/-- Leading and trailing whitespace removed from a character list, as the
string strip int(...) performs before parsing. -/
def stripChars (cs : List Char) : List Char :=
  ((cs.dropWhile Char.isWhitespace).reverse.dropWhile Char.isWhitespace).reverse

/-- Python `int(s)` on a string: strips whitespace, allows one leading sign,
then requires a non-empty digit run; otherwise raises ValueError (here:
`Option.none`).  `int("")` is a ValueError. -/
def pyIntOfString (s : String) : Option Int :=
  match stripChars s.toList with
  | [] => Option.none
  | c :: rest =>
    if c = '-' then
      match rest with
      | [] => Option.none
      | _ => (digitsVal rest 0).map (fun n => -(n : Int))
    else if c = '+' then
      match rest with
      | [] => Option.none
      | _ => (digitsVal rest 0).map (fun n => (n : Int))
    else (digitsVal (c :: rest) 0).map (fun n => (n : Int))

/-- Python `int(v)` on a callback result: integers pass through, strings are
parsed, `None` raises (no integer value results). -/
def pyIntOf : PyVal → Option Int
  | PyVal.none => Option.none
  | PyVal.str s => pyIntOfString s
  | PyVal.int n => Option.some n

/-- How a call of src/agent.py ends when it does not return normally:
a structured `org.bluez.Error.Rejected` DBusException with its message, or an
unstructured Python ValueError escaping from `int(...)`. -/
inductive AgentFailure where
  | rejected : String → AgentFailure
  | valueError : AgentFailure
deriving DecidableEq, Repr

/-- Agent.RequestPinCode (src/agent.py lines 12-18): `pin` is the result of
`self.ui_callback("pin", device)`; `if not pin` raises Rejected, otherwise
`str(pin)` is returned. -/
def RequestPinCode (pin : PyVal) : Except AgentFailure String :=
  if pyTruthy pin then Except.ok (pyStr pin)
  else Except.error (AgentFailure.rejected "User cancelled PIN input")

/-- Agent.RequestPasskey (src/agent.py lines 20-26): `passkey` is the result of
`self.ui_callback("passkey", device)`; only `passkey is None` raises Rejected,
any other value is passed to `int(passkey)`, whose ValueError is not caught. -/
def RequestPasskey (passkey : PyVal) : Except AgentFailure Int :=
  match passkey with
  | PyVal.none => Except.error (AgentFailure.rejected "User cancelled passkey input")
  | v =>
    match pyIntOf v with
    | Option.none => Except.error AgentFailure.valueError
    | Option.some n => Except.ok n

/-- The org.bluez.Device1 properties this module reads from a managed object. -/
structure DeviceProps where
  address : Option String
  name : Option String
  aliasName : Option String
  paired : Bool
  connected : Bool
  adapter : Option String
deriving DecidableEq, Repr

/-- The managed-object tree returned by GetManagedObjects: each entry is an
object path together with its Device1 properties when the device interface is
among the interfaces of the entry (`Option.none` models an entry without it). -/
abbrev ManagedTree := List (String × Option DeviceProps)

/-- The identity of a BluetoothDeviceManager: the BlueZ root path constant and
the adapter interface name it was constructed with. -/
structure Manager where
  bluezPath : String
  interfaceName : String
deriving DecidableEq, Repr

/-- The adapter path the constructor builds: the BlueZ root path, a slash and
the interface name. -/
def adapter_path (m : Manager) : String :=
  m.bluezPath ++ "/" ++ m.interfaceName

/-- A DBusException caught by the try/except blocks of src/bluez.py. -/
structure DBusErr where
  msg : String
deriving DecidableEq, Repr

/-- Python dict insertion: overwrite the binding in place when the key is
already present, append otherwise. -/
def dictInsert (k : Option String) (v : String) :
    List (Option String × String) → List (Option String × String)
  | [] => [(k, v)]
  | (k2, v2) :: rest =>
    if k2 = k then (k, v) :: rest else (k2, v2) :: dictInsert k v rest

/-- One iteration of the loop in get_paired_devices: an entry with the device
interface whose `Paired` is truthy and whose `Adapter` equals the bound
adapter path adds `address -> name-or-"Unknown"` to the dict. -/
def pairedStep (m : Manager) (acc : List (Option String × String))
    (entry : String × Option DeviceProps) : List (Option String × String) :=
  match entry.2 with
  | Option.none => acc
  | Option.some d =>
    if d.paired = true ∧ d.adapter = Option.some (adapter_path m) then
      dictInsert d.address (d.name.getD "Unknown") acc
    else acc

/-- BluetoothDeviceManager.get_paired_devices (src/bluez.py lines 35-49). -/
def get_paired_devices (m : Manager) (tree : ManagedTree) :
    List (Option String × String) :=
  tree.foldl (pairedStep m) []

/-- Python `a in b` on strings: `a` occurs as a contiguous substring of `b`. -/
def substrOf (a b : String) : Bool :=
  decide (List.IsInfix a.toList b.toList)

/-- Python `s.startswith(pre)`. -/
def startsWith (s pre : String) : Bool :=
  decide (List.IsPrefix pre.toList s.toList)

/-- BluetoothDeviceManager.find_device_path (src/bluez.py lines 95-112): first
entry with the device interface whose path contains `bluez_path/interface/`
and whose `Address` equals the given address; `None` when no entry matches
(a mismatching address under the adapter only logs a warning and the scan
continues). -/
def find_device_path (m : Manager) : ManagedTree → String → Option String
  | [], _ => Option.none
  | (_, Option.none) :: rest, a => find_device_path m rest a
  | (p, Option.some d) :: rest, a =>
    if substrOf (adapter_path m ++ "/") p then
      if d.address = Option.some a then Option.some p
      else find_device_path m rest a
    else find_device_path m rest a

/-- Properties.Get against a device object path: the Device1 property set the
tree holds at that path (`Option.none` when the path is absent or carries no
device interface, in which case the real call raises). -/
def lookupDevice : ManagedTree → String → Option DeviceProps
  | [], _ => Option.none
  | (p, d) :: rest, q => if p = q then d else lookupDevice rest q

/-- Outcomes of the two agent-manager calls made by register_agent. -/
structure RegisterEnv where
  registerAgentCall : Except DBusErr Unit
  requestDefaultCall : Except DBusErr Unit

/-- BluetoothDeviceManager.register_agent (src/bluez.py lines 114-123):
RegisterAgent then RequestDefaultAgent; a DBusException from either returns
False; the success path only logs and falls off the end, returning Python
`None` (here `Option.none`). -/
def register_agent (env : RegisterEnv) : Option Bool :=
  match env.registerAgentCall with
  | Except.error _ => Option.some false
  | Except.ok _ =>
    match env.requestDefaultCall with
    | Except.error _ => Option.some false
    | Except.ok _ => Option.none

/-- BluetoothDeviceManager.pair (src/bluez.py lines 125-156).  `pairEff` is the
combined outcome of `device.Pair()` followed by the re-read of `Paired`: an
error if either raises a DBusException, otherwise the re-read flag.  The first
component is the Python return value (`Option.none` for the fall-through of
the except branch, which has no return); the second records whether
`device.Pair()` was invoked. -/
def pair (m : Manager) (tree : ManagedTree) (pairEff : Except DBusErr Bool)
    (address : String) : Option Bool × Bool :=
  match find_device_path m tree address with
  | Option.none => (Option.some false, false)
  | Option.some p =>
    match lookupDevice tree p with
    | Option.none => (Option.none, false)
    | Option.some d =>
      if d.paired then (Option.some true, false)
      else
        match pairEff with
        | Except.error _ => (Option.none, true)
        | Except.ok paired2 =>
          if paired2 then (Option.some true, true) else (Option.some false, true)

/-- BluetoothDeviceManager.connect (src/bluez.py lines 157-181).  `connectEff`
is the combined outcome of `device.Connect()` followed by the read of
`Connected`: an error if either raises, otherwise the flag read.  Returns the
Python value: True on a confirmed connection, False when no path resolves or
an exception is caught, and `None` (fall-through, no return statement) when
the call succeeded but the flag read back false. -/
def connect (m : Manager) (tree : ManagedTree) (connectEff : Except DBusErr Bool)
    (address : String) : Option Bool :=
  match find_device_path m tree address with
  | Option.none => Option.some false
  | Option.some _ =>
    match connectEff with
    | Except.error _ => Option.some false
    | Except.ok c => if c then Option.some true else Option.none

/-- The adapter state start_discovery interacts with: the `Discovering`
property and an instrumentation counter of StartDiscovery calls issued. -/
structure DiscoveryState where
  discovering : Bool
  startCalls : Nat
deriving DecidableEq, Repr

/-- BluetoothDeviceManager.start_discovery (src/bluez.py lines 51-60): when
`Discovering` is false it calls StartDiscovery (after which BlueZ sets the
flag to `flagAfterStart`); when the flag is already set it only logs
"Discovery already in progress." and issues nothing. -/
def start_discovery (flagAfterStart : Bool) (s : DiscoveryState) : DiscoveryState :=
  if s.discovering then s
  else { discovering := flagAfterStart, startCalls := s.startCalls + 1 }

/-- The pre-removal scan of unpair_device (src/bluez.py lines 221-226): the
first entry with the device interface whose `Address` equals the given address
and whose path starts with the bound adapter path. -/
def findUnpairTarget (m : Manager) : ManagedTree → String → Option String
  | [], _ => Option.none
  | (_, Option.none) :: rest, a => findUnpairTarget m rest a
  | (p, Option.some d) :: rest, a =>
    if d.address = Option.some a ∧ startsWith p (adapter_path m) = true then Option.some p
    else findUnpairTarget m rest a

/-- The post-removal re-scan of unpair_device (src/bluez.py lines 233-237):
does any entry anywhere in the tree carry the device interface with this
address (no adapter-path restriction)? -/
def addressPresent (tree : ManagedTree) (a : String) : Bool :=
  tree.any (fun e =>
    match e.2 with
    | Option.none => false
    | Option.some d => d.address == Option.some a)

/-- BluetoothDeviceManager.unpair_device (src/bluez.py lines 210-242).
`preTree` is the managed-object tree at the first GetManagedObjects call,
`postTree` the tree 500 ms after RemoveDevice, `removeEff` the outcome of
`self.adapter.RemoveDevice(target_path)`.  The first component is the return
value, the second records whether RemoveDevice was issued. -/
def unpair_device (m : Manager) (preTree postTree : ManagedTree)
    (removeEff : Except DBusErr Unit) (address : String) : Bool × Bool :=
  match findUnpairTarget m preTree address with
  | Option.none => (true, false)
  | Option.some _ =>
    match removeEff with
    | Except.error _ => (false, true)
    | Except.ok _ =>
      if addressPresent postTree address then (false, true) else (true, true)

/-- The Result class of src/utils.py lines 7-23. -/
structure RunResult where
  command : String
  stdout : String
  stderr : String
  pid : Nat
  exit_status : Int
deriving DecidableEq, Repr

/-- What the spawned command would do, as the OS determines it: how many
seconds until it terminates, its raw output streams (decoded), its pid and
return code. -/
structure ProcBehavior where
  secondsToComplete : Nat
  stdoutBytes : String
  stderrBytes : String
  pid : Nat
  returncode : Int
deriving DecidableEq, Repr

/-- How a call to `run` ends: a completed Result, a bare Popen handle (the
non-blocking and logfile modes return the process object), or an uncaught
subprocess.TimeoutExpired fault propagating out of `proc.communicate`. -/
inductive RunOutcome where
  | completed : RunResult → RunOutcome
  | processHandle : RunOutcome
  | timeoutFault : RunOutcome
deriving DecidableEq, Repr

/-- Python truthiness of the `logfile` argument (`if logfile:`): `None` and
the empty string are falsy. -/
def logfileTruthy : Option String → Bool
  | Option.none => false
  | Option.some f => !(f == "")

/-- run (src/utils.py lines 34-64).  `if not block` returns the handle;
`if logfile:` returns the handle; otherwise `proc.communicate(timeout=600, ...)`
either completes within the 600-second ceiling — giving a Result with decoded,
whitespace-trimmed stdout/stderr, the pid and the exit status — or raises
TimeoutExpired, which nothing catches. -/
def run (command : String) (logfile : Option String) (block : Bool)
    (proc : ProcBehavior) : RunOutcome :=
  if !block then RunOutcome.processHandle
  else if logfileTruthy logfile then RunOutcome.processHandle
  else if proc.secondsToComplete ≤ 600 then
    RunOutcome.completed
      { command := command
        stdout := proc.stdoutBytes.trim
        stderr := proc.stderrBytes.trim
        pid := proc.pid
        exit_status := proc.returncode }
  else RunOutcome.timeoutFault

/-
Concrete fixtures: one adapter hci0 under the standard BlueZ root, a paired
phone under it, a paired keyboard with a different address, and the same
phone address showing up under a second adapter hci1.
-/

/-- A manager bound to adapter hci0 under the standard BlueZ root path. -/
def hostManager : Manager :=
  { bluezPath := "/org/bluez", interfaceName := "hci0" }

/-- A paired phone under hci0. -/
def phoneProps : DeviceProps :=
  { address := Option.some "AA:BB:CC:DD:EE:FF", name := Option.some "Pixel",
    aliasName := Option.some "Pixel", paired := true, connected := false,
    adapter := Option.some "/org/bluez/hci0" }

/-- The object path of the phone under hci0. -/
def phonePath : String := "/org/bluez/hci0/dev_AA_BB_CC_DD_EE_FF"

/-- A tree holding only the phone under hci0. -/
def hostTree : ManagedTree := [(phonePath, Option.some phoneProps)]

/-- A paired keyboard with a different address under hci0. -/
def keyboardProps : DeviceProps :=
  { address := Option.some "11:22:33:44:55:66", name := Option.some "Keyboard",
    aliasName := Option.some "Keyboard", paired := true, connected := false,
    adapter := Option.some "/org/bluez/hci0" }

/-- The object path of the keyboard under hci0. -/
def keyboardPath : String := "/org/bluez/hci0/dev_11_22_33_44_55_66"

/-- A tree holding only the keyboard. -/
def keyboardTree : ManagedTree := [(keyboardPath, Option.some keyboardProps)]

/-- The phone address reappearing under a different adapter, hci1. -/
def movedPhoneProps : DeviceProps :=
  { address := Option.some "AA:BB:CC:DD:EE:FF", name := Option.some "Pixel",
    aliasName := Option.some "Pixel", paired := true, connected := false,
    adapter := Option.some "/org/bluez/hci1" }

/-- The object path of the phone under hci1. -/
def movedPhonePath : String := "/org/bluez/hci1/dev_AA_BB_CC_DD_EE_FF"

/-- A tree holding the phone address only under hci1. -/
def movedTree : ManagedTree := [(movedPhonePath, Option.some movedPhoneProps)]

/-- C1 counterexample: when RegisterAgent and RequestDefaultAgent both
complete without a D-Bus error, register_agent falls off the end and returns
the Python value None — not True as the claim states. -/
theorem register_agent_success_returns_none :
    register_agent { registerAgentCall := Except.ok (), requestDefaultCall := Except.ok () }
        = Option.none ∧
    register_agent { registerAgentCall := Except.ok (), requestDefaultCall := Except.ok () }
        ≠ Option.some true := by
  refine ⟨rfl, ?_⟩
  simp [register_agent]

/-- C1 (amended): register_agent returns false when either agent-manager call
raises a DBusException; when both complete without error it returns None (the
success path has no return statement) — in particular it never returns true. -/
theorem register_agent_amended (env : RegisterEnv) :
    (∀ e, env.registerAgentCall = Except.error e → register_agent env = Option.some false) ∧
    (∀ e, env.requestDefaultCall = Except.error e → register_agent env = Option.some false) ∧
    (env.registerAgentCall = Except.ok () ∧ env.requestDefaultCall = Except.ok () →
      register_agent env = Option.none) ∧
    register_agent env ≠ Option.some true := by
  obtain ⟨r, q⟩ := env
  cases r <;> cases q <;> simp [register_agent]

/-- C1 witness: a failing RegisterAgent call makes register_agent return
false, by the amended theorem at a concrete environment. -/
theorem register_agent_amended_witness :
    register_agent { registerAgentCall := Except.error { msg := "org.bluez.Error.AlreadyExists" },
                     requestDefaultCall := Except.ok () } = Option.some false :=
  (register_agent_amended
    { registerAgentCall := Except.error { msg := "org.bluez.Error.AlreadyExists" },
      requestDefaultCall := Except.ok () }).1 { msg := "org.bluez.Error.AlreadyExists" } rfl

/-- C2 counterexample: an empty-string callback result is not None, so
RequestPasskey reaches int of the empty string, which raises an unstructured
ValueError — not the structured Rejected error the claim states. -/
theorem RequestPasskey_empty_string_valueError :
    RequestPasskey (PyVal.str "") = Except.error AgentFailure.valueError ∧
    RequestPasskey (PyVal.str "") ≠
      Except.error (AgentFailure.rejected "User cancelled passkey input") := by
  decide

/-- C2 (amended): RequestPasskey fails with the structured Rejected error
exactly when the callback result is None; a non-None result is handed to
int(...), so an empty or non-numeric string raises an unstructured ValueError
instead, and a numeric result is returned as its integer value. -/
theorem RequestPasskey_amended (v : PyVal) :
    ((∃ m, RequestPasskey v = Except.error (AgentFailure.rejected m)) ↔ v = PyVal.none) ∧
    (v ≠ PyVal.none → pyIntOf v = Option.none →
      RequestPasskey v = Except.error AgentFailure.valueError) ∧
    (∀ n : Int, v ≠ PyVal.none → pyIntOf v = Option.some n →
      RequestPasskey v = Except.ok n) := by
  cases v with
  | none => simp [RequestPasskey]
  | str s => cases h : pyIntOfString s <;> simp [RequestPasskey, pyIntOf, h]
  | int n => simp [RequestPasskey, pyIntOf]

/-- C2 witness: a numeric six-digit string is returned as its integer value,
by the amended theorem at a concrete input. -/
theorem RequestPasskey_amended_witness :
    RequestPasskey (PyVal.str "123456") = Except.ok 123456 :=
  (RequestPasskey_amended (PyVal.str "123456")).2.2 123456 (by decide) (by decide)

/-- C7: when the ui_callback result for a PIN request is the empty string,
RequestPinCode fails with the structured Rejected error instead of returning
the empty string; every non-empty string result is returned as the PIN. -/
theorem RequestPinCode_empty_rejected (s : String) :
    (s = "" → RequestPinCode (PyVal.str s) =
      Except.error (AgentFailure.rejected "User cancelled PIN input")) ∧
    (s ≠ "" → RequestPinCode (PyVal.str s) = Except.ok s) := by
  constructor
  · rintro rfl; rfl
  · intro h
    simp [RequestPinCode, pyTruthy, pyStr, h]

/-- C7 witness: the theorem applied at the empty string and at a concrete
non-empty PIN. -/
theorem RequestPinCode_empty_rejected_witness :
    RequestPinCode (PyVal.str "") =
        Except.error (AgentFailure.rejected "User cancelled PIN input") ∧
    RequestPinCode (PyVal.str "0000") = Except.ok "0000" :=
  ⟨(RequestPinCode_empty_rejected "").1 rfl,
   (RequestPinCode_empty_rejected "0000").2 (by decide)⟩

/-- C5: starting from an adapter that is not discovering, two immediate
start_discovery calls — with BlueZ setting the Discovering flag to true after
the first StartDiscovery — issue exactly one StartDiscovery call: the second
call is a no-op that leaves the state untouched and raises nothing. -/
theorem start_discovery_idempotent (s : DiscoveryState) (h : s.discovering = false) :
    (start_discovery true (start_discovery true s)).startCalls = s.startCalls + 1 ∧
    start_discovery true (start_discovery true s) = start_discovery true s := by
  simp [start_discovery, h]

/-- C5 witness: the theorem at the initial state with no calls issued. -/
theorem start_discovery_idempotent_witness :
    (start_discovery true (start_discovery true
      { discovering := false, startCalls := 0 })).startCalls = 0 + 1 :=
  (start_discovery_idempotent { discovering := false, startCalls := 0 } rfl).1

/-- C8: in blocking mode with no log file, run waits up to the fixed
600-second ceiling and returns a Result with trimmed decoded stdout and
stderr, the pid and the exit status; past the ceiling the TimeoutExpired
fault propagates uncaught — it is not converted into a Result nor into an
explicit Timeout error value. -/
theorem run_blocking_behavior (command : String) (proc : ProcBehavior) :
    (proc.secondsToComplete ≤ 600 →
      run command Option.none true proc = RunOutcome.completed
        { command := command, stdout := proc.stdoutBytes.trim,
          stderr := proc.stderrBytes.trim, pid := proc.pid,
          exit_status := proc.returncode }) ∧
    (600 < proc.secondsToComplete →
      run command Option.none true proc = RunOutcome.timeoutFault) := by
  constructor
  · intro h
    simp [run, logfileTruthy, h]
  · intro h
    have h2 : ¬ proc.secondsToComplete ≤ 600 := by omega
    simp [run, logfileTruthy, h2]

/-- C8 witness: a command completing in one second yields the trimmed
completed Result, by the theorem at a concrete behavior. -/
theorem run_blocking_behavior_witness :
    run "hciconfig -a" Option.none true
      { secondsToComplete := 1, stdoutBytes := " hci0 \n", stderrBytes := "",
        pid := 7, returncode := 0 } = RunOutcome.completed
      { command := "hciconfig -a", stdout := " hci0 \n".trim, stderr := "".trim,
        pid := 7, exit_status := 0 } :=
  (run_blocking_behavior "hciconfig -a"
    { secondsToComplete := 1, stdoutBytes := " hci0 \n", stderrBytes := "",
      pid := 7, returncode := 0 }).1 (by decide)

/-- C10: when the device path resolves and Connect raises nothing but the
Connected read-back is false, connect falls off the end and returns None —
false is returned only when no path resolves or an exception was caught. -/
theorem connect_unconfirmed_returns_none (m : Manager) (tree : ManagedTree)
    (eff : Except DBusErr Bool) (a : String) :
    (∀ p, find_device_path m tree a = Option.some p → eff = Except.ok false →
      connect m tree eff a = Option.none) ∧
    (connect m tree eff a = Option.some false →
      find_device_path m tree a = Option.none ∨ ∃ e, eff = Except.error e) := by
  constructor
  · intro p hp he
    subst he
    simp [connect, hp]
  · intro hfalse
    cases hf : find_device_path m tree a with
    | none => exact Or.inl rfl
    | some p =>
      cases eff with
      | error e => exact Or.inr ⟨e, rfl⟩
      | ok c =>
        exfalso
        cases c <;> simp [connect, hf] at hfalse

/-- C10 witness: the phone path resolves, Connect succeeds, the Connected
read-back is false, and connect returns None, by the theorem at that input. -/
theorem connect_unconfirmed_returns_none_witness :
    connect hostManager hostTree (Except.ok false) "AA:BB:CC:DD:EE:FF" = Option.none :=
  (connect_unconfirmed_returns_none hostManager hostTree (Except.ok false)
    "AA:BB:CC:DD:EE:FF").1 phonePath (by decide) rfl

/-- C3: pair on an address whose resolved device already has the Paired
property set returns true without invoking the Pair method of the device,
whatever Pair would have done. -/
theorem pair_already_paired (m : Manager) (tree : ManagedTree)
    (eff : Except DBusErr Bool) (a p : String) (d : DeviceProps)
    (hfind : find_device_path m tree a = Option.some p)
    (hdev : lookupDevice tree p = Option.some d)
    (hpaired : d.paired = true) :
    pair m tree eff a = (Option.some true, false) := by
  simp [pair, hfind, hdev, hpaired]

/-- C3 witness: the already-paired phone, with a Pair effect that would have
reported failure, still yields (True, no Pair call). -/
theorem pair_already_paired_witness :
    pair hostManager hostTree (Except.ok false) "AA:BB:CC:DD:EE:FF"
      = (Option.some true, false) :=
  pair_already_paired hostManager hostTree (Except.ok false) "AA:BB:CC:DD:EE:FF"
    phonePath phoneProps (by decide) (by decide) rfl

/-- The pre-removal scan finds nothing when no device interface entry in the
tree carries the address, whatever its path. -/
theorem findUnpairTarget_eq_none_of_absent (m : Manager) (a : String) :
    ∀ tree : ManagedTree,
      (∀ p d, (p, Option.some d) ∈ tree → d.address ≠ Option.some a) →
      findUnpairTarget m tree a = Option.none := by
  intro tree
  induction tree with
  | nil => intro _; rfl
  | cons e rest ih =>
    intro habs
    obtain ⟨p, od⟩ := e
    cases od with
    | none =>
      simpa [findUnpairTarget] using
        ih (fun q d hq => habs q d (List.mem_cons_of_mem _ hq))
    | some d =>
      have hne : d.address ≠ Option.some a := habs p d (List.mem_cons_self _ _)
      simp [findUnpairTarget, hne]
      exact ih (fun q e2 hq => habs q e2 (List.mem_cons_of_mem _ hq))

/-- C4: unpair_device on an address with no device-interface entry anywhere in
the managed-object tree returns true without issuing RemoveDevice. -/
theorem unpair_absent_true_no_remove (m : Manager) (pre post : ManagedTree)
    (eff : Except DBusErr Unit) (a : String)
    (habs : ∀ p d, (p, Option.some d) ∈ pre → d.address ≠ Option.some a) :
    unpair_device m pre post eff a = (true, false) := by
  simp [unpair_device, findUnpairTarget_eq_none_of_absent m a pre habs]

/-- C4 witness: unpairing the phone address against a tree that only holds
the keyboard returns (True, no removal), by the theorem at that input. -/
theorem unpair_absent_true_no_remove_witness :
    unpair_device hostManager keyboardTree keyboardTree (Except.ok ())
      "AA:BB:CC:DD:EE:FF" = (true, false) :=
  unpair_absent_true_no_remove hostManager keyboardTree keyboardTree (Except.ok ())
    "AA:BB:CC:DD:EE:FF"
    (by
      intro p d hmem
      simp [keyboardTree] at hmem
      rcases hmem with ⟨rfl, rfl⟩
      decide)

/-- Any path the pre-removal scan returns starts with the bound adapter
path: the scan is restricted to the own adapter of the manager. -/
theorem findUnpairTarget_under_adapter (m : Manager) (a t : String) :
    ∀ tree : ManagedTree, findUnpairTarget m tree a = Option.some t →
      startsWith t (adapter_path m) = true := by
  intro tree
  induction tree with
  | nil => intro h; exact Option.noConfusion h
  | cons e rest ih =>
    obtain ⟨p, od⟩ := e
    cases od with
    | none =>
      intro h
      exact ih (by simpa [findUnpairTarget] using h)
    | some d =>
      intro h
      rw [findUnpairTarget] at h
      split at h
      · rename_i hcond
        obtain rfl := Option.some.inj h
        exact hcond.2
      · exact ih h

/-- The post-removal re-scan reports the address present exactly when some
device-interface entry anywhere in the tree carries it. -/
theorem addressPresent_iff (tree : ManagedTree) (a : String) :
    addressPresent tree a = true ↔
      ∃ p d, (p, Option.some d) ∈ tree ∧ d.address = Option.some a := by
  rw [addressPresent, List.any_eq_true]
  constructor
  · rintro ⟨⟨p, od⟩, hmem, hp⟩
    cases od with
    | none => simp at hp
    | some d =>
      refine ⟨p, d, hmem, ?_⟩
      simpa using hp
  · rintro ⟨p, d, hmem, ha⟩
    exact ⟨(p, Option.some d), hmem, by simpa using ha⟩

/-- C9: once the pre-removal scan — which only matches paths under the bound
adapter — found a target and RemoveDevice succeeded, the post-removal re-scan
is global: unpair_device returns false exactly when some device with the
address remains anywhere in the tree, even under a different adapter. -/
theorem unpair_rescan_is_global (m : Manager) (pre post : ManagedTree) (a t : String)
    (hfind : findUnpairTarget m pre a = Option.some t) :
    startsWith t (adapter_path m) = true ∧
    ((unpair_device m pre post (Except.ok ()) a).1 = false ↔
      ∃ p d, (p, Option.some d) ∈ post ∧ d.address = Option.some a) := by
  refine ⟨findUnpairTarget_under_adapter m a t pre hfind, ?_⟩
  rw [← addressPresent_iff post a]
  simp only [unpair_device, hfind]
  cases h : addressPresent post a <;> simp [h]

/-- C9 witness: the phone found under hci0 is removed, yet the same address
under hci1 in the settled tree makes unpair_device return false, by the
theorem at that input. -/
theorem unpair_rescan_is_global_witness :
    (unpair_device hostManager hostTree movedTree (Except.ok ())
      "AA:BB:CC:DD:EE:FF").1 = false :=
  ((unpair_rescan_is_global hostManager hostTree movedTree "AA:BB:CC:DD:EE:FF"
      phonePath (by decide)).2).mpr
    ⟨movedPhonePath, movedPhoneProps, by simp [movedTree], rfl⟩

/-- Membership of a key in the dict after a Python-style insertion: the
inserted key, or a key that was already there. -/
theorem dictInsert_keys (k a : Option String) (v : String) :
    ∀ l : List (Option String × String),
      (a ∈ (dictInsert k v l).map Prod.fst ↔ a = k ∨ a ∈ l.map Prod.fst) := by
  intro l
  induction l with
  | nil => simp [dictInsert]
  | cons e rest ih =>
    obtain ⟨k2, v2⟩ := e
    by_cases h : k2 = k
    · subst h
      simp [dictInsert]
    · simp [dictInsert, h, ih]
      tauto

/-- Splitting a device-entry existential over the head of the tree. -/
theorem exists_entry_cons (P : String → DeviceProps → Prop) (p : String)
    (od : Option DeviceProps) (rest : ManagedTree) :
    (∃ q d, (q, Option.some d) ∈ (p, od) :: rest ∧ P q d) ↔
      ((∃ d, od = Option.some d ∧ P p d) ∨ ∃ q d, (q, Option.some d) ∈ rest ∧ P q d) := by
  constructor
  · rintro ⟨q, d, hmem, hP⟩
    rcases List.mem_cons.mp hmem with heq | hm
    · injection heq with h1 h2
      subst h1
      left
      exact ⟨d, h2.symm, hP⟩
    · right
      exact ⟨q, d, hm, hP⟩
  · rintro (⟨d, hod, hP⟩ | ⟨q, d, hm, hP⟩)
    · subst hod
      exact ⟨p, d, List.mem_cons_self _ _, hP⟩
    · exact ⟨q, d, List.mem_cons_of_mem _ hm, hP⟩

/-- Keys accumulated by the get_paired_devices loop over any prefix dict. -/
theorem pairedFold_keys (m : Manager) (k : Option String) :
    ∀ (tree : ManagedTree) (acc : List (Option String × String)),
      (k ∈ (tree.foldl (pairedStep m) acc).map Prod.fst ↔
        k ∈ acc.map Prod.fst ∨
          ∃ p d, (p, Option.some d) ∈ tree ∧ d.paired = true ∧
            d.adapter = Option.some (adapter_path m) ∧ d.address = k) := by
  intro tree
  induction tree with
  | nil => intro acc; simp
  | cons e rest ih =>
    intro acc
    obtain ⟨p, od⟩ := e
    rw [List.foldl_cons, ih,
      exists_entry_cons (fun _ d => d.paired = true ∧
        d.adapter = Option.some (adapter_path m) ∧ d.address = k) p od rest]
    cases od with
    | none => simp [pairedStep]
    | some d =>
      by_cases hc : d.paired = true ∧ d.adapter = Option.some (adapter_path m)
      · have hstep : pairedStep m acc (p, Option.some d)
            = dictInsert d.address (d.name.getD "Unknown") acc := by
          simp [pairedStep, hc.1, hc.2]
        rw [hstep, dictInsert_keys d.address k (d.name.getD "Unknown") acc]
        constructor
        · rintro ((rfl | h) | h)
          · exact Or.inr (Or.inl ⟨d, rfl, hc.1, hc.2, rfl⟩)
          · exact Or.inl h
          · exact Or.inr (Or.inr h)
        · rintro (h | (⟨d2, hd2, hC⟩ | h))
          · exact Or.inl (Or.inr h)
          · injection hd2 with hd2e
            subst hd2e
            exact Or.inl (Or.inl hC.2.2.symm)
          · exact Or.inr h
      · have hstep : pairedStep m acc (p, Option.some d) = acc := by
          simp only [pairedStep]
          rw [if_neg hc]
        rw [hstep]
        constructor
        · rintro (h | h)
          · exact Or.inl h
          · exact Or.inr (Or.inr h)
        · rintro (h | (⟨d2, hd2, hC⟩ | h))
          · exact Or.inl h
          · exfalso
            injection hd2 with hd2e
            subst hd2e
            exact hc ⟨hC.1, hC.2.1⟩
          · exact Or.inr h

/-- C6: the keys of the mapping get_paired_devices returns are exactly the
addresses of the devices in the managed-object tree whose Paired flag is set
and whose Adapter equals the bound adapter path — a paired device under a
different adapter never contributes a key. -/
theorem get_paired_devices_keys (m : Manager) (tree : ManagedTree) (k : Option String) :
    k ∈ (get_paired_devices m tree).map Prod.fst ↔
      ∃ p d, (p, Option.some d) ∈ tree ∧ d.paired = true ∧
        d.adapter = Option.some (adapter_path m) ∧ d.address = k := by
  rw [get_paired_devices, pairedFold_keys m k tree []]
  simp

/-- C6 witness: the paired phone under hci0 contributes its address as a key,
by the theorem applied at the concrete tree. -/
theorem get_paired_devices_keys_witness :
    Option.some "AA:BB:CC:DD:EE:FF" ∈
      (get_paired_devices hostManager hostTree).map Prod.fst :=
  (get_paired_devices_keys hostManager hostTree (Option.some "AA:BB:CC:DD:EE:FF")).mpr
    ⟨phonePath, phoneProps, by simp [hostTree], rfl, by decide, rfl⟩
